import Mathlib

/-!
Shallow embedding of the job-execution core of the `assignment-scraper`
repository: the domain entities in `src/domain/entities/scraping.py`
(`ScrapingStatus`, `ScrapingTarget`, `ScrapedData`, `ScrapingJob` and its
state-machine methods), the `ExecuteScrapingJobUseCase` orchestration loop in
`src/application/use_cases/scraping_use_cases.py`, and the tenacity retry
wrapper on `HttpWebScraperService.scrape_url` in
`src/infrastructure/services/web_scraper_impl.py`.

Python mutation is modelled by explicit state passing: each entity method
becomes a function `ScrapingJob → Except String ScrapingJob`, where
`Except.error msg` embeds `raise ValueError(msg)`.  Every method of the source
checks its guard before mutating any field, so a raised error leaves the
Python object exactly as it was; the functional embedding reflects this by
returning no new state on error.  `datetime.utcnow()` is abstracted to a
`Nat` timestamp supplied by the caller.
-/

namespace Scraper

/-- `ScrapingStatus` enum from `src/domain/entities/scraping.py`. -/
inductive ScrapingStatus where
  | pending
  | in_progress
  | completed
  | failed
  | cancelled
deriving DecidableEq, Repr

/-- String value of a status member, as used in the Python error messages
(`f"Cannot start job in {self.status} status"` interpolates the enum;
we use the short value names). -/
def ScrapingStatus.value : ScrapingStatus → String
  | .pending => "pending"
  | .in_progress => "in_progress"
  | .completed => "completed"
  | .failed => "failed"
  | .cancelled => "cancelled"

/-- `DataType` enum from `src/domain/entities/scraping.py`. -/
inductive DataType where
  | job_listing
  | member_club
  | support_resource
  | general_data
deriving DecidableEq, Repr

/-- `ScrapingTarget` value object (fields relevant to the engine; the
`headers`/`cookies` mappings are carried as association lists). -/
structure ScrapingTarget where
  url : String
  data_type : DataType
  selectors : List (String × String) := []
  headers : List (String × String) := []
  cookies : List (String × String) := []
  javascript_required : Bool := false
deriving DecidableEq, Repr

/-- Python's `str.startswith(prefix)`: the prefix's characters open the
string.  (Modelled on character lists so that the kernel can evaluate it;
Lean's own `String.startsWith` works on byte positions and does not
reduce.) -/
def pyStartsWith (s p : String) : Bool :=
  p.toList.isPrefixOf s.toList

/-- The URL check performed by `ScrapingTarget.__post_init__`:
`self.url.startswith(("http://", "https://"))`. -/
def validTargetUrl (url : String) : Bool :=
  pyStartsWith url "http://" || pyStartsWith url "https://"

/-- Constructing a `ScrapingTarget`: `__post_init__` raises `ValueError`
unless the URL starts with `http://` or `https://`; otherwise the dataclass
instance is produced. -/
def ScrapingTarget.create (url : String) (dt : DataType)
    (selectors : List (String × String) := [])
    (headers : List (String × String) := [])
    (cookies : List (String × String) := [])
    (javascript_required : Bool := false) : Except String ScrapingTarget :=
  if validTargetUrl url then
    .ok ⟨url, dt, selectors, headers, cookies, javascript_required⟩
  else
    .error "URL must start with http:// or https://"

/-- Modelled from the spec (§3 "Data model"): a URL is *syntactically
absolute* when it has an `http`/`https` scheme followed by a non-empty host
(the segment after `://` and before the first `/`).  The source contains no
such predicate; this definition exists only to compare the spec's wording
with the code's `startswith` check. -/
def specSyntacticallyAbsolute (url : String) : Bool :=
  (pyStartsWith url "http://"
      && ((url.toList.drop 7).takeWhile (· ≠ '/')).length ≠ 0)
    || (pyStartsWith url "https://"
      && ((url.toList.drop 8).takeWhile (· ≠ '/')).length ≠ 0)

/-- `ScrapedData` value object: successfully extracted content for one URL.
`content` is an association list of extracted values (the Python dict of
arbitrary values is abstracted to string values, which none of the claims
inspect). -/
structure ScrapedData where
  source_url : String
  data_type : DataType
  content : List (String × String)
  scraped_at : Nat := 0
deriving DecidableEq, Repr

/-- `ScrapingJob` aggregate root.  The `id` and the free-form `config`
mapping play no role in any claim and are dropped; timestamps are abstract
`Nat` instants, `Option` for the nullable ones. -/
structure ScrapingJob where
  name : String := ""
  targets : List ScrapingTarget := []
  status : ScrapingStatus := .pending
  results : List ScrapedData := []
  created_at : Nat := 0
  started_at : Option Nat := none
  completed_at : Option Nat := none
  error_message : Option String := none
deriving DecidableEq, Repr

namespace ScrapingJob

/-- `ScrapingJob.start`: raises unless status is `pending`; otherwise sets
status to `in_progress` and records `started_at`. -/
def start (job : ScrapingJob) (now : Nat) : Except String ScrapingJob :=
  if job.status ≠ ScrapingStatus.pending then
    .error ("Cannot start job in " ++ job.status.value ++ " status")
  else
    .ok { job with status := .in_progress, started_at := some now }

/-- `ScrapingJob.complete`: raises unless status is `in_progress`; otherwise
sets status to `completed` and records `completed_at`. -/
def complete (job : ScrapingJob) (now : Nat) : Except String ScrapingJob :=
  if job.status ≠ ScrapingStatus.in_progress then
    .error ("Cannot complete job in " ++ job.status.value ++ " status")
  else
    .ok { job with status := .completed, completed_at := some now }

/-- `ScrapingJob.fail`: raises unless status is `pending` or `in_progress`;
otherwise sets status to `failed`, records the error message and
`completed_at`. -/
def fail (job : ScrapingJob) (msg : String) (now : Nat) :
    Except String ScrapingJob :=
  if job.status ≠ ScrapingStatus.pending ∧
      job.status ≠ ScrapingStatus.in_progress then
    .error ("Cannot fail job in " ++ job.status.value ++ " status")
  else
    .ok { job with status := .failed, error_message := some msg,
                   completed_at := some now }

/-- `ScrapingJob.cancel`: raises only when status is `completed`; otherwise
sets status to `cancelled` and records `completed_at`. -/
def cancel (job : ScrapingJob) (now : Nat) : Except String ScrapingJob :=
  if job.status = ScrapingStatus.completed then
    .error "Cannot cancel completed job"
  else
    .ok { job with status := .cancelled, completed_at := some now }

/-- `ScrapingJob.add_result`: `self.results.append(scraped_data)`, no guard,
never raises. -/
def add_result (job : ScrapingJob) (d : ScrapedData) : ScrapingJob :=
  { job with results := job.results ++ [d] }

/-- `ScrapingJob.add_target`: `self.targets.append(target)`, no guard. -/
def add_target (job : ScrapingJob) (t : ScrapingTarget) : ScrapingJob :=
  { job with targets := job.targets ++ [t] }

/-- `ScrapingJob.success_rate`: `0.0` when `targets` is empty, else
`len(results) / len(targets)` (real division, modelled in `ℚ`). -/
def success_rate (job : ScrapingJob) : ℚ :=
  if job.targets = [] then 0
  else (job.results.length : ℚ) / (job.targets.length : ℚ)

end ScrapingJob

/-- The transition-and-mutation operations of `ScrapingJob`, reified so that
quantification "for every operation" is a quantification over this type.
Timestamps are the operation's `datetime.utcnow()` reading. -/
inductive JobOp where
  | start (now : Nat)
  | complete (now : Nat)
  | fail (msg : String) (now : Nat)
  | cancel (now : Nat)
  | add_result (d : ScrapedData)
  | add_target (t : ScrapingTarget)

/-- Apply one `ScrapingJob` method; `add_result`/`add_target` never raise. -/
def applyOp (job : ScrapingJob) : JobOp → Except String ScrapingJob
  | .start now => job.start now
  | .complete now => job.complete now
  | .fail msg now => job.fail msg now
  | .cancel now => job.cancel now
  | .add_result d => .ok (job.add_result d)
  | .add_target t => .ok (job.add_target t)

/-- The state of the Python object after invoking an operation: unchanged
when the method raised (every method checks its guard before mutating). -/
def runOp (job : ScrapingJob) (op : JobOp) : ScrapingJob :=
  match applyOp job op with
  | .ok j => j
  | .error _ => job

/-- The transition table of spec §3: the (status, event) pairs for which the
table prescribes a successful transition.  `add_result`/`add_target` are not
transitions; the spec permits adding a result while `pending` or
`in_progress`. -/
def specAllowed (s : ScrapingStatus) : JobOp → Bool
  | .start _ => s = ScrapingStatus.pending
  | .complete _ => s = ScrapingStatus.in_progress
  | .fail _ _ => s = ScrapingStatus.pending || s = ScrapingStatus.in_progress
  | .cancel _ => s = ScrapingStatus.pending || s = ScrapingStatus.in_progress
  | .add_result _ => s = ScrapingStatus.pending || s = ScrapingStatus.in_progress
  | .add_target _ => true

/-!
`ExecuteScrapingJobUseCase` from
`src/application/use_cases/scraping_use_cases.py`.  The per-target scraping
helpers (`_scrape_job_listing` etc. and the scraper services behind them) are
abstracted into one function `extract : ScrapingTarget → Except String
ScrapedData`, standing for the body of `_scrape_target`'s `try` block: `.ok`
when a `ScrapedData` is produced, `.error e` when the underlying call raises
with message `e`.  The helpers may also return `None` without raising (empty
listing); that outcome is represented by an `extract` that raises — both land
in `None` from the caller's point of view, except for the log line, which
only the raising path emits; claims C3/C4/C8 quantify over `extract`, so both
shapes are covered where it matters.  Repository `update`/`find` calls are
external collaborators and modelled as always succeeding. -/

/-- `_scrape_target(target)`: runs the extraction, catching any exception;
on failure prints `f"Error scraping target {target.url}: {e}"` and returns
`None`.  The returned pair is (the `Optional[ScrapedData]` result, the lines
printed). -/
def scrape_target (extract : ScrapingTarget → Except String ScrapedData)
    (t : ScrapingTarget) : Option ScrapedData × List String :=
  match extract t with
  | .ok d => (some d, [])
  | .error e => (none, ["Error scraping target " ++ t.url ++ ": " ++ e])

/-- The body of `ExecuteScrapingJobUseCase.execute`'s `for target in
job.targets` loop: scrape each target, appending to `job.results` whenever a
`ScrapedData` is returned (`if scraped_data: job.add_result(scraped_data)`;
a `ScrapedData` instance is always truthy), and accumulating printed
output. -/
def scrapeLoop (extract : ScrapingTarget → Except String ScrapedData)
    (targets : List ScrapingTarget) (job : ScrapingJob) (log : List String) :
    ScrapingJob × List String :=
  match targets with
  | [] => (job, log)
  | t :: ts =>
      match scrape_target extract t with
      | (some d, l) => scrapeLoop extract ts (job.add_result d) (log ++ l)
      | (none, l) => scrapeLoop extract ts job (log ++ l)

/-- `ExecuteScrapingJobUseCase.execute(job_id)` after the job has been
fetched from the repository: `job.start()` (raising out of the method if the
job is not pending), then the target loop and `job.complete()` inside `try`,
with `job.fail(str(e))` in the `except` handler; the final job is returned.
`now` and `fin` are the `utcnow()` readings of `start` and of the finalizing
transition.  The returned pair carries the job and everything printed. -/
def executeScrapingJob (extract : ScrapingTarget → Except String ScrapedData)
    (job : ScrapingJob) (now fin : Nat) :
    Except String (ScrapingJob × List String) :=
  match job.start now with
  | .error e => .error e
  | .ok started =>
      let (j, log) := scrapeLoop extract started.targets started []
      match j.complete fin with
      | .ok c => .ok (c, log)
      | .error e =>
          match j.fail e fin with
          | .ok f => .ok (f, log)
          | .error e2 => .error e2

/-- The successful outcome of extracting one target, if any (what
`_scrape_target` would hand back as non-`None`). -/
def extractOk (extract : ScrapingTarget → Except String ScrapedData)
    (t : ScrapingTarget) : Option ScrapedData :=
  match extract t with
  | .ok d => some d
  | .error _ => none

/-!
The tenacity retry wrapper on `HttpWebScraperService.scrape_url` in
`src/infrastructure/services/web_scraper_impl.py`:

    @retry(stop=stop_after_attempt(3), wait=wait_exponential(...))
    async def scrape_url(self, target) -> ScrapedData: ...

Tenacity's default retry predicate (`retry_if_exception_type(Exception)`)
retries on *every* exception; `stop_after_attempt(3)` stops after the third
attempt, at which point the last error propagates.  The wrapped call is
abstracted to `call : Nat → Except ExtractionError ScrapedData`, giving the
outcome of the (0-indexed) n-th invocation. -/

/-- The spec's error taxonomy (§7): each extraction failure carries a reason
and a `retryable` flag.  The source never defines or reads such a flag — it
is carried here so that the retry model can be interrogated about
non-retryable errors. -/
structure ExtractionError where
  reason : String
  retryable : Bool
deriving DecidableEq, Repr

/-- The tenacity retry loop: invoke `call`; on success stop, on failure stop
once `remaining` further attempts are not available, else retry.  Returns
(number of invocations performed, final outcome).  The retry decision never
consults the error's `retryable` flag, exactly as tenacity's default
predicate retries every exception. -/
def retryCall (call : Nat → Except ExtractionError ScrapedData) :
    Nat → Nat → Nat × Except ExtractionError ScrapedData
  | 0, used => (used, .error ⟨"stop before first attempt", true⟩)
  | remaining + 1, used =>
      match call used with
      | .ok d => (used + 1, .ok d)
      | .error e =>
          if remaining = 0 then (used + 1, .error e)
          else retryCall call remaining (used + 1)

/-- `scrape_url` under its `@retry(stop=stop_after_attempt(3))` decorator:
at most 3 attempts, retrying every failure. -/
def scrape_url_retried (call : Nat → Except ExtractionError ScrapedData) :
    Nat × Except ExtractionError ScrapedData :=
  retryCall call 3 0

/-- The lines printed by `_scrape_target` over a list of targets, in order. -/
def targetLogs (extract : ScrapingTarget → Except String ScrapedData) :
    List ScrapingTarget → List String
  | [] => []
  | t :: ts => (scrape_target extract t).2 ++ targetLogs extract ts

/-- A status from which no further transition is intended: `completed`,
`failed` or `cancelled`. -/
def isTerminal (s : ScrapingStatus) : Bool :=
  s = ScrapingStatus.completed || s = ScrapingStatus.failed
    || s = ScrapingStatus.cancelled

/-- The invariant of claim C10: a job in a terminal status has its
`completed_at` timestamp set. -/
def completedAtInv (job : ScrapingJob) : Prop :=
  isTerminal job.status = true → job.completed_at.isSome = true

/-- Whether a `JobOp` is one of the four state-machine transitions
(`start`, `complete`, `fail`, `cancel`). -/
def transitionOp : JobOp → Bool
  | .start _ => true
  | .complete _ => true
  | .fail _ _ => true
  | .cancel _ => true
  | .add_result _ => false
  | .add_target _ => false

/-- The (status, event) pairs the *code* actually accepts: the spec §3 table,
except that `cancel()` is accepted from every status other than
`completed`. -/
def codeAllowed (s : ScrapingStatus) : JobOp → Bool
  | .start _ => s = ScrapingStatus.pending
  | .complete _ => s = ScrapingStatus.in_progress
  | .fail _ _ => s = ScrapingStatus.pending || s = ScrapingStatus.in_progress
  | .cancel _ => s ≠ ScrapingStatus.completed
  | .add_result _ => true
  | .add_target _ => true

/-- Unfolding the target loop: it appends exactly the successful
extractions, in target order, and logs exactly the per-target failure
lines. -/
theorem scrapeLoop_spec (extract : ScrapingTarget → Except String ScrapedData)
    (ts : List ScrapingTarget) (job : ScrapingJob) (log : List String) :
    scrapeLoop extract ts job log =
      ({ job with results := job.results ++ ts.filterMap (extractOk extract) },
        log ++ targetLogs extract ts) := by
  induction ts generalizing job log with
  | nil => simp [scrapeLoop, targetLogs]
  | cons t ts ih =>
      cases h : extract t with
      | ok d =>
          simp [scrapeLoop, scrape_target, targetLogs, extractOk, h, ih,
            ScrapingJob.add_result]
      | error e =>
          simp [scrapeLoop, scrape_target, targetLogs, extractOk, h, ih]

/-- Executing a pending job always returns normally: the job comes back
`completed`, with `started_at`/`completed_at` stamped and exactly the
successful extractions appended to its results; the log holds the
per-target failure lines. -/
theorem executeScrapingJob_eq
    (extract : ScrapingTarget → Except String ScrapedData)
    (job : ScrapingJob) (now fin : Nat)
    (h : job.status = ScrapingStatus.pending) :
    executeScrapingJob extract job now fin =
      .ok ({ job with
              status := .completed
              started_at := some now
              completed_at := some fin
              results := job.results ++
                job.targets.filterMap (extractOk extract) },
            targetLogs extract job.targets) := by
  unfold executeScrapingJob
  rw [ScrapingJob.start]
  simp only [h, ne_eq, not_true_eq_false, if_false, reduceIte]
  rw [scrapeLoop_spec]
  simp [ScrapingJob.complete]

/-- `success_rate` is never negative. -/
theorem success_rate_nonneg (job : ScrapingJob) : 0 ≤ job.success_rate := by
  unfold ScrapingJob.success_rate
  split
  · exact le_refl 0
  · positivity

/-- `success_rate` is at most 1 as soon as there are no more results than
targets. -/
theorem success_rate_le_one (job : ScrapingJob)
    (h : job.results.length ≤ job.targets.length) : job.success_rate ≤ 1 := by
  unfold ScrapingJob.success_rate
  split
  · exact zero_le_one
  · rw [div_le_one]
    · exact_mod_cast h
    · have : job.targets ≠ [] := by assumption
      have hp : 0 < job.targets.length := List.length_pos.mpr this
      exact_mod_cast hp

/-- Executing a non-pending job fails immediately: `job.start()` raises out
of `execute` before the `try` block. -/
theorem executeScrapingJob_nonpending
    (extract : ScrapingTarget → Except String ScrapedData)
    (job : ScrapingJob) (now fin : Nat)
    (h : job.status ≠ ScrapingStatus.pending) :
    executeScrapingJob extract job now fin =
      Except.error ("Cannot start job in " ++ job.status.value ++ " status") := by
  unfold executeScrapingJob ScrapingJob.start
  simp [h]

/-- A target that finally fails leaves its printed line in the accumulated
log of the target loop. -/
theorem mem_targetLogs (extract : ScrapingTarget → Except String ScrapedData)
    (t : ScrapingTarget) (ts : List ScrapingTarget) (e : String)
    (ht : t ∈ ts) (he : extract t = Except.error e) :
    ("Error scraping target " ++ t.url ++ ": " ++ e) ∈ targetLogs extract ts := by
  induction ts with
  | nil => cases ht
  | cons a as ih =>
      rcases List.mem_cons.mp ht with rfl | hmem
      · exact List.mem_append_left _ (by simp [scrape_target, he])
      · exact List.mem_append_right _ (ih hmem)

/-- C1 (corrected): `cancel()` on a *failed* job does not raise an
invalid-transition error — contrary to the spec's table, the code accepts it
and moves the job to `cancelled`, stamping `completed_at`. -/
theorem cancel_failed_accepted :
    applyOp ({ status := .failed } : ScrapingJob) (JobOp.cancel 5) =
      Except.ok { ({ status := .failed } : ScrapingJob) with
        status := .cancelled, completed_at := some 5 } := by
  rfl

/-- C1 (amended): every (status, operation) pair the code's guards reject
fails with a `ValueError` and leaves the job — status, timestamps and
error message — unchanged; the code's accepted set is the spec §3 table
except that `cancel()` is rejected only from `completed`: from `failed` or
`cancelled` it succeeds, setting status to `cancelled` and updating
`completed_at`. -/
theorem invalid_transitions_are_noops (job : ScrapingJob) (op : JobOp)
    (now : Nat) :
    (transitionOp op = true → codeAllowed job.status op = false →
      (∃ e, applyOp job op = Except.error e) ∧ runOp job op = job) ∧
    ((job.status = ScrapingStatus.failed ∨
        job.status = ScrapingStatus.cancelled) →
      job.cancel now =
        Except.ok { job with status := .cancelled,
                             completed_at := some now }) := by
  obtain ⟨nm, tg, st, rs, ca, sa, cmp, em⟩ := job
  cases op <;> cases st <;>
    simp [transitionOp, codeAllowed, applyOp, runOp, ScrapingJob.start,
      ScrapingJob.complete, ScrapingJob.fail, ScrapingJob.cancel,
      ScrapingJob.add_result, ScrapingJob.add_target]

/-- Witness for C1's amended theorem: a completed job rejects `start()`
unchanged, and a failed job accepts `cancel()`. -/
theorem invalid_transitions_are_noops_witness :
    ((∃ e, applyOp ({ status := .completed } : ScrapingJob) (JobOp.start 2) =
        Except.error e) ∧
      runOp ({ status := .completed } : ScrapingJob) (JobOp.start 2) =
        ({ status := .completed } : ScrapingJob)) ∧
    ({ status := .failed } : ScrapingJob).cancel 7 =
      Except.ok { ({ status := .failed } : ScrapingJob) with
        status := .cancelled, completed_at := some 7 } :=
  ⟨(invalid_transitions_are_noops { status := .completed } (JobOp.start 2) 7).1
      rfl rfl,
   (invalid_transitions_are_noops { status := .failed } (JobOp.start 2) 7).2
      (Or.inl rfl)⟩

/-- C6: starting a job whose status is not `pending` raises, leaves the job
(including `started_at`) unchanged, and makes the engine's `execute` fail
outright, so a finalized job can never be executed a second time. -/
theorem start_nonpending_rejected (job : ScrapingJob) (now fin : Nat)
    (extract : ScrapingTarget → Except String ScrapedData)
    (h : job.status ≠ ScrapingStatus.pending) :
    (∃ e, job.start now = Except.error e) ∧
    runOp job (JobOp.start now) = job ∧
    (∃ e, executeScrapingJob extract job now fin = Except.error e) := by
  have hs : job.start now =
      Except.error ("Cannot start job in " ++ job.status.value ++ " status") := by
    simp [ScrapingJob.start, h]
  exact ⟨⟨_, hs⟩, by simp [runOp, applyOp, hs],
    ⟨_, executeScrapingJob_nonpending extract job now fin h⟩⟩

/-- Witness for C6 at a completed job. -/
theorem start_nonpending_rejected_witness :
    (∃ e, ({ status := .completed } : ScrapingJob).start 0 = Except.error e) ∧
    runOp ({ status := .completed } : ScrapingJob) (JobOp.start 0) =
      ({ status := .completed } : ScrapingJob) ∧
    (∃ e, executeScrapingJob (fun _ => Except.error "x")
        ({ status := .completed } : ScrapingJob) 0 1 = Except.error e) :=
  start_nonpending_rejected { status := .completed } 0 1
    (fun _ => Except.error "x") (by decide)

/-- C9 (corrected): `add_result` on a *completed* job does not fail — the
method has no guard, the result is appended and the status stays
`completed`. -/
theorem add_result_completed_accepted :
    applyOp ({ status := .completed, completed_at := some 4 } : ScrapingJob)
        (JobOp.add_result ⟨"https://a.example", .general_data,
          [("title", "t")], 9⟩) =
      Except.ok { ({ status := .completed, completed_at := some 4 } :
          ScrapingJob) with
        results := [⟨"https://a.example", .general_data, [("title", "t")], 9⟩] } := by
  rfl

/-- C9 (amended): `add_result` succeeds unconditionally — in every status,
including the terminal ones — appends the given data to `results`, and never
changes the job's status. -/
theorem add_result_unguarded (job : ScrapingJob) (d : ScrapedData) :
    applyOp job (JobOp.add_result d) = Except.ok (job.add_result d) ∧
    (job.add_result d).status = job.status ∧
    (job.add_result d).results = job.results ++ [d] :=
  ⟨rfl, rfl, rfl⟩

/-- C10: the invariant "terminal status implies `completed_at` is set" is
preserved by every `ScrapingJob` operation: `complete()`, `fail()` and
`cancel()` each stamp `completed_at` in the same step as the status change,
`start()` leaves a non-terminal status, and `add_result`/`add_target` touch
neither field. -/
theorem terminal_has_completed_at (job : ScrapingJob) (op : JobOp)
    (h : completedAtInv job) : completedAtInv (runOp job op) := by
  obtain ⟨nm, tg, st, rs, ca, sa, cmp, em⟩ := job
  cases op <;> cases st <;>
    simp_all [runOp, applyOp, ScrapingJob.start, ScrapingJob.complete,
      ScrapingJob.fail, ScrapingJob.cancel, ScrapingJob.add_result,
      ScrapingJob.add_target, completedAtInv, isTerminal]

/-- Witness for C10: completing an in-progress job stamps `completed_at`. -/
theorem terminal_has_completed_at_witness :
    completedAtInv ({ status := .in_progress, started_at := some 0 } :
      ScrapingJob) ∧
    completedAtInv (runOp ({ status := .in_progress, started_at := some 0 } :
      ScrapingJob) (JobOp.complete 3)) :=
  ⟨by intro h; simp [isTerminal] at h,
   terminal_has_completed_at { status := .in_progress, started_at := some 0 }
     (JobOp.complete 3) (by intro h; simp [isTerminal] at h)⟩

/-- C2 (corrected): a job reachable through the public operations can have a
success rate above 1 — `add_result` is unguarded, so adding two results to a
one-target job yields `success_rate = 2`. -/
theorem success_rate_above_one :
    validTargetUrl "https://a.example" = true ∧
    ((({ targets := [⟨"https://a.example", .general_data, [], [], [], false⟩] } :
          ScrapingJob).add_result
            ⟨"https://a.example", .general_data, [("k", "v")], 0⟩).add_result
          ⟨"https://a.example", .general_data, [("k", "v")], 0⟩).success_rate = 2 ∧
    ¬((2 : ℚ) ≤ 1) := by
  refine ⟨by decide, ?_, by norm_num⟩
  norm_num [ScrapingJob.add_result, ScrapingJob.success_rate]

/-- C2 (amended): `success_rate` equals `len(results) / len(targets)` (0 on
an empty target list) and is never negative; it is at most 1 whenever the
job holds no more results than targets — in particular for every job the
execution engine produces from a job without pre-seeded results — but
`add_result` is unguarded, so operation sequences adding more results than
targets push it above 1. -/
theorem success_rate_formula_and_bounds (job j0 : ScrapingJob)
    (extract : ScrapingTarget → Except String ScrapedData)
    (now fin : Nat) (log : List String) :
    job.success_rate =
      (if job.targets = [] then 0
        else (job.results.length : ℚ) / (job.targets.length : ℚ)) ∧
    0 ≤ job.success_rate ∧
    (job.results.length ≤ job.targets.length → job.success_rate ≤ 1) ∧
    (j0.results = [] →
      executeScrapingJob extract j0 now fin = Except.ok (job, log) →
      0 ≤ job.success_rate ∧ job.success_rate ≤ 1) := by
  refine ⟨rfl, success_rate_nonneg job, success_rate_le_one job, ?_⟩
  intro hres hexec
  by_cases hp : j0.status = ScrapingStatus.pending
  · rw [executeScrapingJob_eq extract j0 now fin hp] at hexec
    injection hexec with h
    injection h with hjob hlog
    subst hjob
    refine ⟨success_rate_nonneg _, success_rate_le_one _ ?_⟩
    simpa [hres] using List.length_filterMap_le (extractOk extract) j0.targets
  · rw [executeScrapingJob_nonpending extract j0 now fin hp] at hexec
    cases hexec

/-- Witness for C2's amended theorem: a one-target job executed with an
always-succeeding extractor ends with success rate in [0, 1]. -/
theorem success_rate_formula_and_bounds_witness :
    executeScrapingJob
        (fun _ => Except.ok ⟨"https://a.example", .general_data, [("t", "v")], 0⟩)
        ({ targets := [⟨"https://a.example", .general_data, [], [], [], false⟩] } :
          ScrapingJob) 0 1 =
      Except.ok
        (⟨"", [⟨"https://a.example", .general_data, [], [], [], false⟩],
            .completed, [⟨"https://a.example", .general_data, [("t", "v")], 0⟩],
            0, some 0, some 1, none⟩, []) ∧
    0 ≤ (⟨"", [⟨"https://a.example", .general_data, [], [], [], false⟩],
        .completed, [⟨"https://a.example", .general_data, [("t", "v")], 0⟩],
        0, some 0, some 1, none⟩ : ScrapingJob).success_rate ∧
    (⟨"", [⟨"https://a.example", .general_data, [], [], [], false⟩],
        .completed, [⟨"https://a.example", .general_data, [("t", "v")], 0⟩],
        0, some 0, some 1, none⟩ : ScrapingJob).success_rate ≤ 1 := by
  refine ⟨rfl, ?_⟩
  exact (success_rate_formula_and_bounds
      ⟨"", [⟨"https://a.example", .general_data, [], [], [], false⟩],
        .completed, [⟨"https://a.example", .general_data, [("t", "v")], 0⟩],
        0, some 0, some 1, none⟩
      ({ targets := [⟨"https://a.example", .general_data, [], [], [], false⟩] })
      (fun _ => Except.ok ⟨"https://a.example", .general_data, [("t", "v")], 0⟩)
      0 1 []).2.2.2 rfl rfl

/-- C5 (corrected): an error marked non-retryable is retried exactly like a
retryable one — the underlying fetch is invoked 3 times, not once, because
tenacity's default policy retries every exception. -/
theorem nonretryable_error_still_retried :
    scrape_url_retried (fun _ => Except.error ⟨"blocked by robots", false⟩) =
      (3, Except.error ⟨"blocked by robots", false⟩) ∧ (3 : Nat) ≠ 1 := by
  exact ⟨rfl, by decide⟩

/-- When every attempt fails, the retry loop performs exactly as many
invocations as it has attempts available, and the final outcome is an
error. -/
theorem retryCall_all_fail (call : Nat → Except ExtractionError ScrapedData)
    (h : ∀ n, ∃ e, call n = Except.error e) :
    ∀ k used, 0 < k → (retryCall call k used).1 = used + k ∧
      ∃ e, (retryCall call k used).2 = Except.error e := by
  intro k
  induction k with
  | zero => exact fun used h0 => absurd h0 (lt_irrefl 0)
  | succ n ih =>
      intro used _
      obtain ⟨e, he⟩ := h used
      by_cases hn : n = 0
      · subst hn
        simp [retryCall, he]
      · obtain ⟨ihc, ihe⟩ := ih (used + 1) (Nat.pos_of_ne_zero hn)
        refine ⟨?_, ?_⟩
        · simp only [retryCall, he, hn, if_false, reduceIte]
          omega
        · simpa only [retryCall, he, hn, if_false, reduceIte] using ihe

/-- C5 (amended): for every permanently failing fetch — whatever the
`retryable` flags of its errors — `scrape_url`'s retry wrapper invokes the
fetch exactly `max_attempts = 3` times and ends in failure; the code never
consults a retryable/non-retryable classification. -/
theorem retry_exhausts_max_attempts
    (call : Nat → Except ExtractionError ScrapedData)
    (h : ∀ n, ∃ e, call n = Except.error e) :
    (scrape_url_retried call).1 = 3 ∧
    ∃ e, (scrape_url_retried call).2 = Except.error e := by
  have := retryCall_all_fail call h 3 0 (by norm_num)
  simpa [scrape_url_retried] using this

/-- Witness for C5's amended theorem at a permanently failing non-retryable
fetch. -/
theorem retry_exhausts_max_attempts_witness :
    (scrape_url_retried (fun _ => Except.error ⟨"timeout", true⟩)).1 = 3 :=
  (retry_exhausts_max_attempts (fun _ => Except.error ⟨"timeout", true⟩)
    (fun _ => ⟨⟨"timeout", true⟩, rfl⟩)).1

/-- C7 (corrected): the scheme-only URL `"http://"` has no host — it is not
syntactically absolute — yet `ScrapingTarget` construction accepts it: the
code checks only the scheme prefix. -/
theorem schemeless_host_accepted :
    ScrapingTarget.create "http://" DataType.general_data [] [] [] false =
      Except.ok ⟨"http://", .general_data, [], [], [], false⟩ ∧
    specSyntacticallyAbsolute "http://" = false := by
  exact ⟨rfl, by decide⟩

/-- C7 (amended): construction fails (with a `ValueError` at creation time)
exactly when the URL does not start with `http://` or `https://` — so empty
and relative URLs are rejected, and every URL with scheme and host is
accepted — but the host is never checked: any URL with the scheme prefix is
accepted, host or not. -/
theorem target_url_validation (url : String) (dt : DataType) :
    (validTargetUrl url = false →
      ScrapingTarget.create url dt [] [] [] false =
        Except.error "URL must start with http:// or https://") ∧
    (specSyntacticallyAbsolute url = true →
      ScrapingTarget.create url dt [] [] [] false =
        Except.ok ⟨url, dt, [], [], [], false⟩) ∧
    (ScrapingTarget.create "" dt [] [] [] false =
      Except.error "URL must start with http:// or https://") ∧
    (ScrapingTarget.create "/relative/path" dt [] [] [] false =
      Except.error "URL must start with http:// or https://") := by
  refine ⟨?_, ?_, ?_, ?_⟩
  · intro h
    simp [ScrapingTarget.create, h]
  · intro h
    have hv : validTargetUrl url = true := by
      simp only [specSyntacticallyAbsolute, validTargetUrl, Bool.or_eq_true,
        Bool.and_eq_true] at h ⊢
      tauto
    simp [ScrapingTarget.create, hv]
  · simp [ScrapingTarget.create, validTargetUrl, pyStartsWith]
  · simp [ScrapingTarget.create, validTargetUrl, pyStartsWith]

/-- Witness for C7's amended theorem: a scheme-less URL is rejected, a
proper absolute URL is accepted. -/
theorem target_url_validation_witness :
    ScrapingTarget.create "ftp://host" DataType.general_data [] [] [] false =
      Except.error "URL must start with http:// or https://" ∧
    ScrapingTarget.create "https://host/x" DataType.general_data [] [] [] false =
      Except.ok ⟨"https://host/x", .general_data, [], [], [], false⟩ :=
  ⟨(target_url_validation "ftp://host" .general_data).1 (by decide),
   (target_url_validation "https://host/x" .general_data).2.1 (by decide)⟩

/-- C3: executing a pending job, per-target extraction failures never abort
the run, never cancel the remaining targets and never move the job to
`failed`: the engine always returns the job `completed`, its results being
exactly the prior results followed by the successfully scraped targets'
data, in target order. -/
theorem per_target_failure_never_aborts
    (extract : ScrapingTarget → Except String ScrapedData)
    (job : ScrapingJob) (now fin : Nat)
    (h : job.status = ScrapingStatus.pending) :
    executeScrapingJob extract job now fin =
      Except.ok ({ job with
          status := .completed
          started_at := some now
          completed_at := some fin
          results := job.results ++
            job.targets.filterMap (extractOk extract) },
        targetLogs extract job.targets) :=
  executeScrapingJob_eq extract job now fin h

/-- Witness for C3: a two-target job whose second target always fails still
completes, holding exactly the first target's data. -/
theorem per_target_failure_never_aborts_witness :
    executeScrapingJob
        (fun t => match t.data_type with
          | .general_data =>
              Except.ok ⟨t.url, .general_data, [("title", "A")], 0⟩
          | _ => Except.error "boom")
        ({ targets := [⟨"https://a.example", .general_data, [], [], [], false⟩,
            ⟨"https://b.example", .job_listing, [], [], [], false⟩] } :
          ScrapingJob) 0 1 =
      Except.ok
        (⟨"", [⟨"https://a.example", .general_data, [], [], [], false⟩,
            ⟨"https://b.example", .job_listing, [], [], [], false⟩],
          .completed,
          [⟨"https://a.example", .general_data, [("title", "A")], 0⟩],
          0, some 0, some 1, none⟩,
         ["Error scraping target https://b.example: boom"]) := by
  rw [per_target_failure_never_aborts _ _ 0 1 rfl]
  rfl

/-- C4 (corrected): a failing target leaves no trace in the returned job —
no results entry, no error message, status still `completed`; its URL and
failure reason appear only in the printed log line. -/
theorem failed_target_only_logged :
    executeScrapingJob (fun _ => Except.error "boom")
        ({ targets := [⟨"https://a.example", .general_data, [], [], [], false⟩] } :
          ScrapingJob) 0 1 =
      Except.ok
        (⟨"", [⟨"https://a.example", .general_data, [], [], [], false⟩],
          .completed, [], 0, some 0, some 1, none⟩,
         ["Error scraping target https://a.example: boom"]) := by
  rw [executeScrapingJob_eq _ _ 0 1 rfl]
  rfl

/-- C4 (amended): for every target whose extraction finally fails during
the execution of a pending job, the engine emits the target's URL and
failure reason, but only as a printed log line; the returned job records no
per-target failure information — its `error_message` is untouched and its
status is `completed`. -/
theorem failed_target_url_reason_in_log
    (extract : ScrapingTarget → Except String ScrapedData)
    (job j : ScrapingJob) (now fin : Nat) (t : ScrapingTarget) (e : String)
    (log : List String)
    (hp : job.status = ScrapingStatus.pending)
    (ht : t ∈ job.targets) (he : extract t = Except.error e)
    (hx : executeScrapingJob extract job now fin = Except.ok (j, log)) :
    ("Error scraping target " ++ t.url ++ ": " ++ e) ∈ log ∧
    j.error_message = job.error_message ∧
    j.status = ScrapingStatus.completed := by
  rw [executeScrapingJob_eq extract job now fin hp] at hx
  injection hx with h
  injection h with hj hl
  subst hj
  subst hl
  exact ⟨mem_targetLogs extract t job.targets e ht he, rfl, rfl⟩

/-- Witness for C4's amended theorem on a one-target job whose extraction
fails with reason `boom`. -/
theorem failed_target_url_reason_in_log_witness :
    ("Error scraping target " ++
        (⟨"https://a.example", DataType.general_data, [], [], [], false⟩ :
          ScrapingTarget).url ++ ": " ++ "boom") ∈
      ["Error scraping target https://a.example: boom"] ∧
    (⟨"", [⟨"https://a.example", .general_data, [], [], [], false⟩],
        .completed, [], 0, some 0, some 1, none⟩ : ScrapingJob).error_message =
      ({ targets := [⟨"https://a.example", .general_data, [], [], [], false⟩] } :
        ScrapingJob).error_message ∧
    (⟨"", [⟨"https://a.example", .general_data, [], [], [], false⟩],
        .completed, [], 0, some 0, some 1, none⟩ : ScrapingJob).status =
      ScrapingStatus.completed :=
  failed_target_url_reason_in_log (fun _ => Except.error "boom")
    ({ targets := [⟨"https://a.example", .general_data, [], [], [], false⟩] })
    ⟨"", [⟨"https://a.example", .general_data, [], [], [], false⟩],
      .completed, [], 0, some 0, some 1, none⟩
    0 1 ⟨"https://a.example", .general_data, [], [], [], false⟩ "boom"
    ["Error scraping target https://a.example: boom"]
    rfl (List.mem_singleton.mpr rfl) rfl (by rfl)

/-- C8: executing a pending job with an empty target list immediately
yields a completed job with empty results and success rate 0 — zero targets
is not an error. -/
theorem zero_target_job_completes
    (extract : ScrapingTarget → Except String ScrapedData)
    (job : ScrapingJob) (now fin : Nat)
    (hp : job.status = ScrapingStatus.pending)
    (ht : job.targets = []) (hr : job.results = []) :
    executeScrapingJob extract job now fin =
      Except.ok ({ job with
          status := .completed
          started_at := some now
          completed_at := some fin }, []) ∧
    ({ job with
        status := ScrapingStatus.completed
        started_at := some now
        completed_at := some fin } : ScrapingJob).results = [] ∧
    ({ job with
        status := ScrapingStatus.completed
        started_at := some now
        completed_at := some fin } : ScrapingJob).success_rate = 0 := by
  have h := executeScrapingJob_eq extract job now fin hp
  refine ⟨?_, hr, ?_⟩
  · simpa [targetLogs, ht] using h
  · simp [ScrapingJob.success_rate, ht]

/-- Witness for C8 on the default-constructed job. -/
theorem zero_target_job_completes_witness :
    executeScrapingJob (fun _ => Except.error "x") ({} : ScrapingJob) 0 1 =
      Except.ok ({ ({} : ScrapingJob) with
          status := .completed
          started_at := some 0
          completed_at := some 1 }, []) ∧
    ({ ({} : ScrapingJob) with
        status := ScrapingStatus.completed
        started_at := some 0
        completed_at := some 1 } : ScrapingJob).results = [] ∧
    ({ ({} : ScrapingJob) with
        status := ScrapingStatus.completed
        started_at := some 0
        completed_at := some 1 } : ScrapingJob).success_rate = 0 :=
  zero_target_job_completes (fun _ => Except.error "x") {} 0 1 rfl rfl rfl

end Scraper
